import Mathlib

/-!
Shallow embedding of the Clinical Aggregator API (src/app.py): the MIME
resolver `get_mime_type`, the validator `validate_file`, the Gemini wrapper
`process_with_gemini` and the `/extract` request handler `extract`, together
with theorems about their request/response behaviour.

The external model call is an oracle parameter; Python string operations
(`str.lower`, `str.upper`, `str.strip`, `str.startswith`, splitting) are
modelled ASCII-faithfully by structural recursion over the character list of
a string, so that every definition evaluates by kernel reduction.
-/

namespace ClinicalAggregator

/-- ASCII-faithful model of Python `str.lower` (extensions in the code are
ASCII, where the two functions agree). -/
def pyLower (s : String) : String := String.mk (s.data.map Char.toLower)

/-- ASCII-faithful model of Python `str.upper`. -/
def pyUpper (s : String) : String := String.mk (s.data.map Char.toUpper)

/-- The ASCII whitespace characters removed by Python `str.strip()`. -/
def pyIsSpace (c : Char) : Bool :=
  c == ' ' || c == '\t' || c == '\n' || c == '\r' || c == '\x0b' || c == '\x0c'

/-- Python `str.strip()`: drop leading and trailing whitespace. -/
def pyStrip (s : String) : String :=
  String.mk (((s.data.dropWhile pyIsSpace).reverse.dropWhile pyIsSpace).reverse)

/-- Whether `sub` is a prefix of `l`: Python `str.startswith`. -/
def listStarts (sub l : List Char) : Bool :=
  match sub, l with
  | [], _ => true
  | _ :: _, [] => false
  | a :: as, b :: bs => a == b && listStarts as bs

/-- Python `s.startswith(pre)`. -/
def pyStarts (s pre : String) : Bool := listStarts pre.data s.data

/-- Whether `sub` occurs contiguously inside `l`. -/
def listInside (sub l : List Char) : Bool :=
  match l with
  | [] => listStarts sub ([])
  | b :: bs => listStarts sub (b :: bs) || listInside sub bs

/-- Whether `msg` contains `sub` as a contiguous substring: Python `in`. -/
def strContains (msg sub : String) : Bool := listInside sub.data msg.data

/-- The extension computed at app.py lines 79 and 98:
`filename.lower().split(dot)[-1] if dot in filename else empty`. The last
component of the split at dots is the suffix after the last dot, computed
here by reversing and taking up to the first dot. -/
def extOf (filename : String) : String :=
  if filename.data.contains '.' then
    String.mk (((pyLower filename).data.reverse.takeWhile (fun c => c != '.')).reverse)
  else ("")

/-- The dictionary `mime_map` of app.py lines 80-90. -/
def mime_map : List (String × String) :=
  [(("pdf"), ("application/pdf")),
   (("png"), ("image/png")),
   (("jpg"), ("image/jpeg")),
   (("jpeg"), ("image/jpeg")),
   (("gif"), ("image/gif")),
   (("webp"), ("image/webp")),
   (("tiff"), ("image/tiff")),
   (("tif"), ("image/tiff")),
   (("bmp"), ("image/bmp"))]

/-- app.py lines 77-91: MIME type from the extension, defaulting to
octet-stream (`mime_map.get(ext, default)`). -/
def get_mime_type (filename : String) : String :=
  (mime_map.lookup (extOf filename)).getD ("application/octet-stream")

/-- The allow-list `allowed` of app.py line 97. -/
def allowed : List String :=
  [("pdf"), ("png"), ("jpg"), ("jpeg"), ("gif"), ("webp"), ("tiff"), ("tif"), ("bmp")]

/-- The 20 MiB cap `max_size` of app.py line 104. -/
def max_size : Nat := 20 * 1024 * 1024

/-- The tenths-of-a-MB figure shown by the format spec `.1f` applied to
`file_size / 1024 / 1024` at app.py line 106: rounding half to even, which
matches IEEE-754 float formatting exactly for sizes below 2^53 (dividing a
float twice by 1024 is exact there). -/
def mbTenths (file_size : Nat) : Nat :=
  let num := file_size * 10
  let den := 1024 * 1024
  if 2 * (num % den) > den then num / den + 1
  else if 2 * (num % den) < den then num / den
  else if num / den % 2 = 0 then num / den
  else num / den + 1

/-- The interpolated size string of app.py line 106, one decimal place. -/
def formatMB (file_size : Nat) : String :=
  toString (mbTenths file_size / 10) ++ (".") ++ toString (mbTenths file_size % 10)

/-- The rejection message for a bad extension (app.py line 101). -/
def msgFormato (ext : String) : String :=
  ("Formato .") ++ ext ++ (" não suportado. Use: PDF, PNG, JPG, etc.")

/-- The rejection message for an oversized file (app.py line 106). -/
def msgGrande (file_size : Nat) : String :=
  ("Arquivo muito grande (") ++ formatMB file_size ++ ("MB). Limite: 20MB")

/-- app.py lines 94-108: `validate_file(filename, file_size)`, returning the
pair `(is_valid, error_msg)`. The extension is checked first, then the size. -/
def validate_file (filename : String) (file_size : Nat) : Bool × String :=
  let ext := extOf filename
  if ext ∉ allowed then (false, msgFormato ext)
  else if file_size > max_size then (false, msgGrande file_size)
  else (true, (""))

/-- Outcome of the external Gemini call at app.py lines 130-135: the raw
response text, or an exception raised by the client or transport. -/
inductive GeminiOutcome where
  | ok (text : String)
  | exn
  deriving DecidableEq

/-- app.py lines 111-137: `process_with_gemini` sends the bytes and MIME type
to the model (the oracle argument) and strips the response text; an exception
from the call propagates, modelled as `Except.error`. -/
def process_with_gemini (gemini : List Nat → String → GeminiOutcome)
    (file_bytes : List Nat) (mime_type : String) : Except Unit String :=
  match gemini file_bytes mime_type with
  | GeminiOutcome.exn => Except.error ()
  | GeminiOutcome.ok text => Except.ok (pyStrip text)

/-- JSON body shape produced by the handler; `none` stands for an absent key.
`metadata` is the triple (filename, size_bytes, mime_type) of app.py 246-250. -/
structure JsonBody where
  success : Bool
  error : Option String
  message : String
  metadata : Option (String × Nat × String)
  deriving DecidableEq

/-- An HTTP response: status code and JSON body (`none` is the empty body of
the 204 preflight answer). -/
structure HttpResponse where
  status : Nat
  body : Option JsonBody
  deriving DecidableEq

/-- The HTTP methods the `/extract` route accepts (app.py line 167). -/
inductive Method where
  | POST
  | OPTIONS
  deriving DecidableEq

/-- The `file` part of the multipart body: `filename` and content bytes. -/
structure FilePart where
  filename : String
  content : List Nat
  deriving DecidableEq

/-- The Python truthiness test `not GEMINI_API_KEY` at app.py line 185: the
key is missing when the variable is unset (`none`) or the empty string. -/
def keyMissing (apiKey : Option String) : Bool :=
  match apiKey with
  | none => true
  | some k => k == ("")

/-- A `jsonify({success: False, error: code, message: msg}), status`
response, the error shape used throughout the handler. -/
def errorResponse (status : Nat) (code : String) (message : String) : HttpResponse :=
  { status := status,
    body := some { success := false, error := some code, message := message, metadata := none } }

/-- The success response of app.py lines 243-251. -/
def successResponse (message : String) (metadata : String × Nat × String) : HttpResponse :=
  { status := 200,
    body := some { success := true, error := none, message := message,
                   metadata := some metadata } }

/-- Message of the CONFIG_ERROR response (app.py line 190). -/
def msgConfig : String := ("API não configurada corretamente. Contate o administrador.")

/-- Message of the NO_FILE response for a missing field (app.py line 198). -/
def msgNoFile : String := ("Nenhum arquivo enviado. Envie um arquivo no campo \x27file\x27.")

/-- Message of the NO_FILE response for an empty filename (app.py line 208). -/
def msgSemNome : String := ("Arquivo sem nome.")

/-- Message of the PROCESSING_ERROR response (app.py line 258). -/
def msgErro : String := ("Erro ao processar documento. Tente novamente.")

/-- Message of the NOT_CLINICAL response (app.py line 239). -/
def msgNotClinical (reason : String) : String :=
  ("Documento não contém informações clínicas: ") ++ reason

/-- The fallback reason of app.py line 235. -/
def defaultReason : String := ("Documento não clínico")

/-- Python `result_text.split(colon, 1)[-1]`: everything after the first
colon; used at app.py line 235 only when the text contains a colon. -/
def afterFirstColon (s : String) : String :=
  String.mk ((s.data.dropWhile (fun c => c != ':')).drop 1)

/-- The `reason` expression of app.py line 235. -/
def notClinicalReason (result_text : String) : String :=
  if result_text.data.contains ':' then pyStrip (afterFirstColon result_text)
  else defaultReason

/-- app.py lines 167-259: the `/extract` handler. `apiKey` is the ambient
GEMINI_API_KEY value, `gemini` the external model oracle, `files` the
optional `file` part of the multipart body (`none` when the field is
absent). The branch order mirrors the source: OPTIONS preflight, key check,
file-field checks, validation, MIME resolution, model call, classification. -/
def extract (apiKey : Option String) (gemini : List Nat → String → GeminiOutcome)
    (method : Method) (files : Option FilePart) : HttpResponse :=
  if method = Method.OPTIONS then { status := 204, body := none }
  else if keyMissing apiKey then errorResponse 500 ("CONFIG_ERROR") msgConfig
  else
    match files with
    | none => errorResponse 400 ("NO_FILE") msgNoFile
    | some file =>
      if file.filename = ("") then errorResponse 400 ("NO_FILE") msgSemNome
      else
        let file_bytes := file.content
        let filename := file.filename
        let v := validate_file filename file_bytes.length
        if v.1 = false then errorResponse 400 ("INVALID_FILE") v.2
        else
          let mime_type := get_mime_type filename
          match process_with_gemini gemini file_bytes mime_type with
          | Except.error _ => errorResponse 500 ("PROCESSING_ERROR") msgErro
          | Except.ok result_text =>
            if pyStarts (pyUpper result_text) ("NOT_CLINICAL") then
              errorResponse 200 ("NOT_CLINICAL") (msgNotClinical (notClinicalReason result_text))
            else successResponse result_text (filename, file_bytes.length, mime_type)

example : extOf ("A.PdF") = ("pdf") := by decide
example : extOf ("noext") = ("") := by decide
example : extOf ("a.tar.GZ") = ("gz") := by decide
example : get_mime_type ("x.TIF") = ("image/tiff") := by decide
example : get_mime_type ("x.txt") = ("application/octet-stream") := by decide
example : (validate_file ("a.txt") 5).1 = false := by decide
example : (validate_file ("a.pdf") 5).1 = true := by decide
example : formatMB (25 * 1024 * 1024) = ("25.0") := by decide
example : pyStrip ("  ab c\n ") = ("ab c") := by decide
example : strContains ("abcdef") ("cde") = true := by decide
example : strContains ("abcdef") ("cf") = false := by decide
example : afterFirstColon ("NOT_CLINICAL: x: y") = (" x: y") := by decide
example : pyStarts (pyUpper ("not_clinical: x")) ("NOT_CLINICAL") = true := by decide

theorem listStarts_append (s t : List Char) : listStarts s (s ++ t) = true := by
  induction s with
  | nil => rfl
  | cons a as ih => simp [listStarts, ih]

theorem listInside_of_starts (s l : List Char) (h : listStarts s l = true) :
    listInside s l = true := by
  cases l with
  | nil => simpa [listInside] using h
  | cons b bs => simp [listInside, h]

theorem listInside_append (pre s t : List Char) : listInside s (pre ++ (s ++ t)) = true := by
  induction pre with
  | nil => exact listInside_of_starts _ _ (listStarts_append s t)
  | cons b bs ih => simp [listInside, ih]

theorem strContains_decomp (pre sub post : String) :
    strContains (pre ++ sub ++ post) sub = true := by
  show listInside sub.data (pre ++ sub ++ post).data = true
  rw [String.data_append, String.data_append, List.append_assoc]
  exact listInside_append _ _ _

theorem strContains_append (pre sub : String) : strContains (pre ++ sub) sub = true := by
  show listInside sub.data (pre ++ sub).data = true
  rw [String.data_append]
  have h := listInside_append pre.data sub.data ([])
  rwa [List.append_nil] at h

theorem msgFormato_contains (e : String) :
    strContains (msgFormato e) ((".") ++ e) = true := by
  have hdec : msgFormato e
      = ("Formato ") ++ ((".") ++ e) ++ (" não suportado. Use: PDF, PNG, JPG, etc.") := by
    unfold msgFormato
    have hsplit : ("Formato ") ++ ((".") ++ e) = ("Formato .") ++ e := by
      rw [← String.append_assoc, show ("Formato ") ++ (".") = ("Formato .") by decide]
    rw [hsplit]
  rw [hdec]
  exact strContains_decomp _ _ _

theorem msgFormato_ne_msgGrande (e : String) (s : Nat) : msgFormato e ≠ msgGrande s := by
  intro h
  have h2 : (msgFormato e).data.head? = (msgGrande s).data.head? := by rw [h]
  have hF : (msgFormato e).data.head? = some ('F') := rfl
  have hA : (msgGrande s).data.head? = some ('A') := rfl
  rw [hF, hA] at h2
  exact absurd h2 (by decide)

/-- C3: `validate_file` returns ok exactly for filenames whose
(case-insensitively compared) extension is in the allow-list with size at
most 20 × 1024 × 1024 bytes; any oversize or disallowed extension fails. -/
theorem validate_ok_iff (fn : String) (size : Nat) :
    (validate_file fn size).1 = true ↔ (extOf fn ∈ allowed ∧ size ≤ max_size) := by
  unfold validate_file
  by_cases h : extOf fn ∈ allowed <;> by_cases h2 : size > max_size <;>
    (simp [h, h2]; try omega)

/-- C7: `get_mime_type` is total and implements the fixed extension table,
sending every extension outside the table (the empty one included) to
`application/octet-stream`. -/
theorem get_mime_type_spec (fn : String) :
    (extOf fn = ("pdf") → get_mime_type fn = ("application/pdf")) ∧
    (extOf fn = ("png") → get_mime_type fn = ("image/png")) ∧
    (extOf fn = ("jpg") → get_mime_type fn = ("image/jpeg")) ∧
    (extOf fn = ("jpeg") → get_mime_type fn = ("image/jpeg")) ∧
    (extOf fn = ("gif") → get_mime_type fn = ("image/gif")) ∧
    (extOf fn = ("webp") → get_mime_type fn = ("image/webp")) ∧
    (extOf fn = ("tiff") → get_mime_type fn = ("image/tiff")) ∧
    (extOf fn = ("tif") → get_mime_type fn = ("image/tiff")) ∧
    (extOf fn = ("bmp") → get_mime_type fn = ("image/bmp")) ∧
    (extOf fn ∉ allowed → get_mime_type fn = ("application/octet-stream")) := by
  refine ⟨?_, ?_, ?_, ?_, ?_, ?_, ?_, ?_, ?_, ?_⟩ <;> intro h
  case _ => unfold get_mime_type; rw [h]; decide
  case _ => unfold get_mime_type; rw [h]; decide
  case _ => unfold get_mime_type; rw [h]; decide
  case _ => unfold get_mime_type; rw [h]; decide
  case _ => unfold get_mime_type; rw [h]; decide
  case _ => unfold get_mime_type; rw [h]; decide
  case _ => unfold get_mime_type; rw [h]; decide
  case _ => unfold get_mime_type; rw [h]; decide
  case _ => unfold get_mime_type; rw [h]; decide
  case _ =>
    simp only [allowed, List.mem_cons, List.not_mem_nil, not_or, or_false] at h
    obtain ⟨h1, h2, h3, h4, h5, h6, h7, h8, h9⟩ := h
    have e1 : (extOf fn == ("pdf")) = false := beq_eq_false_iff_ne.mpr h1
    have e2 : (extOf fn == ("png")) = false := beq_eq_false_iff_ne.mpr h2
    have e3 : (extOf fn == ("jpg")) = false := beq_eq_false_iff_ne.mpr h3
    have e4 : (extOf fn == ("jpeg")) = false := beq_eq_false_iff_ne.mpr h4
    have e5 : (extOf fn == ("gif")) = false := beq_eq_false_iff_ne.mpr h5
    have e6 : (extOf fn == ("webp")) = false := beq_eq_false_iff_ne.mpr h6
    have e7 : (extOf fn == ("tiff")) = false := beq_eq_false_iff_ne.mpr h7
    have e8 : (extOf fn == ("tif")) = false := beq_eq_false_iff_ne.mpr h8
    have e9 : (extOf fn == ("bmp")) = false := beq_eq_false_iff_ne.mpr h9
    simp [get_mime_type, mime_map, List.lookup, e1, e2, e3, e4, e5, e6, e7, e8, e9]

/-- C7 witness: one filename per table row, plus an unknown and a missing
extension. -/
theorem get_mime_type_spec_witness :
    get_mime_type ("a.pdf") = ("application/pdf") ∧
    get_mime_type ("b.PNG") = ("image/png") ∧
    get_mime_type ("c.jpg") = ("image/jpeg") ∧
    get_mime_type ("d.jpeg") = ("image/jpeg") ∧
    get_mime_type ("e.gif") = ("image/gif") ∧
    get_mime_type ("f.webp") = ("image/webp") ∧
    get_mime_type ("g.tiff") = ("image/tiff") ∧
    get_mime_type ("h.tif") = ("image/tiff") ∧
    get_mime_type ("i.bmp") = ("image/bmp") ∧
    get_mime_type ("j.txt") = ("application/octet-stream") ∧
    get_mime_type ("noext") = ("application/octet-stream") :=
  ⟨(get_mime_type_spec ("a.pdf")).1 (by decide),
   (get_mime_type_spec ("b.PNG")).2.1 (by decide),
   (get_mime_type_spec ("c.jpg")).2.2.1 (by decide),
   (get_mime_type_spec ("d.jpeg")).2.2.2.1 (by decide),
   (get_mime_type_spec ("e.gif")).2.2.2.2.1 (by decide),
   (get_mime_type_spec ("f.webp")).2.2.2.2.2.1 (by decide),
   (get_mime_type_spec ("g.tiff")).2.2.2.2.2.2.1 (by decide),
   (get_mime_type_spec ("h.tif")).2.2.2.2.2.2.2.1 (by decide),
   (get_mime_type_spec ("i.bmp")).2.2.2.2.2.2.2.2.1 (by decide),
   (get_mime_type_spec ("j.txt")).2.2.2.2.2.2.2.2.2 (by decide),
   (get_mime_type_spec ("noext")).2.2.2.2.2.2.2.2.2 (by decide)⟩

/-- C9: a filename whose extension is not in the allow-list is rejected, for
every size, with the message naming the rejected extension. -/
theorem validate_bad_ext (fn : String) (size : Nat) (h : extOf fn ∉ allowed) :
    (validate_file fn size).1 = false ∧
    (validate_file fn size).2 = msgFormato (extOf fn) ∧
    strContains (validate_file fn size).2 ((".") ++ extOf fn) = true := by
  have hv : validate_file fn size = (false, msgFormato (extOf fn)) := by
    simp [validate_file, h]
  exact ⟨by rw [hv], by rw [hv], by rw [hv]; exact msgFormato_contains _⟩

/-- C9 witness at the concrete filename a.txt. -/
theorem validate_bad_ext_witness :
    (validate_file ("a.txt") 5).1 = false ∧
    (validate_file ("a.txt") 5).2 = msgFormato (extOf ("a.txt")) ∧
    strContains (validate_file ("a.txt") 5).2 ((".") ++ extOf ("a.txt")) = true :=
  validate_bad_ext ("a.txt") 5 (by decide)

/-- C10: the extension check precedes the size check: a disallowed extension
yields the extension message for every size (an oversize included), and the
size message can only be produced for an allow-listed extension. -/
theorem validate_ext_before_size (fn : String) (size : Nat) :
    (extOf fn ∉ allowed → validate_file fn size = (false, msgFormato (extOf fn))) ∧
    ((validate_file fn size).2 = msgGrande size → extOf fn ∈ allowed) := by
  constructor
  · intro h
    simp [validate_file, h]
  · intro h
    by_contra hna
    have hv : validate_file fn size = (false, msgFormato (extOf fn)) := by
      simp [validate_file, hna]
    rw [hv] at h
    exact msgFormato_ne_msgGrande _ _ h

/-- C10 witness: a disallowed extension with an oversize file still gets the
extension message. -/
theorem validate_ext_before_size_witness :
    validate_file ("a.txt") (25 * 1024 * 1024) = (false, msgFormato (extOf ("a.txt"))) :=
  (validate_ext_before_size ("a.txt") (25 * 1024 * 1024)).1 (by decide)

theorem strContains_of_data (msg sub : String) (pre post : List Char)
    (h : msg.data = pre ++ (sub.data ++ post)) : strContains msg sub = true := by
  show listInside sub.data msg.data = true
  rw [h]
  exact listInside_append _ _ _

theorem msgGrande_contains (s : Nat) :
    strContains (msgGrande s) (formatMB s ++ ("MB")) = true := by
  have hT : ("MB). Limite: 20MB").data
      = ("MB").data ++ ("). Limite: 20MB").data := by decide
  refine strContains_of_data _ _ (("Arquivo muito grande (").data)
    (("). Limite: 20MB").data) ?_
  simp [msgGrande, String.data_append, List.append_assoc, hT]

/-- The guarded path of the handler: with the key present, a named file and a
passing validation, the response is decided by the model call on the bytes
and the resolved MIME type. -/
theorem extract_processed (apiKey : Option String)
    (gemini : List Nat → String → GeminiOutcome) (fn : String) (bytes : List Nat)
    (hkey : keyMissing apiKey = false) (hfn : fn ≠ (""))
    (hval : (validate_file fn bytes.length).1 = true) :
    extract apiKey gemini Method.POST (some ⟨fn, bytes⟩) =
      match gemini bytes (get_mime_type fn) with
      | GeminiOutcome.exn => errorResponse 500 ("PROCESSING_ERROR") msgErro
      | GeminiOutcome.ok text =>
        if pyStarts (pyUpper (pyStrip text)) ("NOT_CLINICAL") then
          errorResponse 200 ("NOT_CLINICAL") (msgNotClinical (notClinicalReason (pyStrip text)))
        else successResponse (pyStrip text) (fn, bytes.length, get_mime_type fn) := by
  cases hg : gemini bytes (get_mime_type fn) with
  | exn => simp [extract, hkey, hfn, hval, process_with_gemini, hg]
  | ok text => simp [extract, hkey, hfn, hval, process_with_gemini, hg]

/-- C1: when the stripped model text case-insensitively starts with
NOT_CLINICAL, the handler answers HTTP 200 with success false, error code
NOT_CLINICAL, and a message containing the (stripped) reason text after the
first colon, or the default phrase when the text has no colon. -/
theorem not_clinical_response (apiKey : Option String)
    (gemini : List Nat → String → GeminiOutcome) (fn text : String) (bytes : List Nat)
    (hkey : keyMissing apiKey = false) (hfn : fn ≠ (""))
    (hval : (validate_file fn bytes.length).1 = true)
    (hok : gemini bytes (get_mime_type fn) = GeminiOutcome.ok text)
    (hcls : pyStarts (pyUpper (pyStrip text)) ("NOT_CLINICAL") = true) :
    extract apiKey gemini Method.POST (some ⟨fn, bytes⟩) =
      errorResponse 200 ("NOT_CLINICAL") (msgNotClinical (notClinicalReason (pyStrip text))) ∧
    strContains (msgNotClinical (notClinicalReason (pyStrip text)))
      (notClinicalReason (pyStrip text)) = true ∧
    ((pyStrip text).data.contains ':' = true →
      notClinicalReason (pyStrip text) = pyStrip (afterFirstColon (pyStrip text))) ∧
    ((pyStrip text).data.contains ':' = false →
      notClinicalReason (pyStrip text) = defaultReason) := by
  refine ⟨?_, ?_, ?_, ?_⟩
  · rw [extract_processed apiKey gemini fn bytes hkey hfn hval, hok]
    simp [hcls]
  · show strContains (("Documento não contém informações clínicas: ") ++ _) _ = true
    exact strContains_append _ _
  · intro h
    unfold notClinicalReason
    rw [h]
    simp
  · intro h
    unfold notClinicalReason
    rw [h]
    simp

/-- C1 witness at the model text of the spec example. -/
theorem not_clinical_response_witness :
    pyStarts (pyUpper (pyStrip ("NOT_CLINICAL: administrative document")))
      ("NOT_CLINICAL") = true ∧
    extract (some ("key"))
        (fun _ _ => GeminiOutcome.ok ("NOT_CLINICAL: administrative document"))
        Method.POST (some ⟨("a.pdf"), [0]⟩) =
      errorResponse 200 ("NOT_CLINICAL")
        (msgNotClinical (notClinicalReason (pyStrip ("NOT_CLINICAL: administrative document")))) ∧
    strContains
      (msgNotClinical (notClinicalReason (pyStrip ("NOT_CLINICAL: administrative document"))))
      (notClinicalReason (pyStrip ("NOT_CLINICAL: administrative document"))) = true ∧
    notClinicalReason (pyStrip ("NOT_CLINICAL: administrative document"))
      = ("administrative document") := by
  refine ⟨by decide, ?_, ?_, by decide⟩
  · exact (not_clinical_response (some ("key"))
      (fun _ _ => GeminiOutcome.ok ("NOT_CLINICAL: administrative document"))
      ("a.pdf") ("NOT_CLINICAL: administrative document") [0]
      (by decide) (by decide) (by decide) rfl (by decide)).1
  · exact (not_clinical_response (some ("key"))
      (fun _ _ => GeminiOutcome.ok ("NOT_CLINICAL: administrative document"))
      ("a.pdf") ("NOT_CLINICAL: administrative document") [0]
      (by decide) (by decide) (by decide) rfl (by decide)).2.1

/-- C2: when the stripped model text does not start with the sentinel, the
handler answers HTTP 200 with success true, the trimmed model text as the
message, and metadata (uploaded filename, byte length, resolved MIME type). -/
theorem clinical_success_response (apiKey : Option String)
    (gemini : List Nat → String → GeminiOutcome) (fn text : String) (bytes : List Nat)
    (hkey : keyMissing apiKey = false) (hfn : fn ≠ (""))
    (hval : (validate_file fn bytes.length).1 = true)
    (hok : gemini bytes (get_mime_type fn) = GeminiOutcome.ok text)
    (hcls : pyStarts (pyUpper (pyStrip text)) ("NOT_CLINICAL") = false) :
    extract apiKey gemini Method.POST (some ⟨fn, bytes⟩) =
      successResponse (pyStrip text) (fn, bytes.length, get_mime_type fn) := by
  rw [extract_processed apiKey gemini fn bytes hkey hfn hval, hok]
  simp [hcls]

/-- C2 witness: a clinical text with surrounding whitespace is returned
trimmed, with the metadata of the upload. -/
theorem clinical_success_response_witness :
    extract (some ("key"))
        (fun _ _ => GeminiOutcome.ok ("  Idade 45, sexo M. Queixa: dor.  "))
        Method.POST (some ⟨("scan.png"), [7, 8, 9]⟩) =
      successResponse (pyStrip ("  Idade 45, sexo M. Queixa: dor.  "))
        (("scan.png"), ([7, 8, 9] : List Nat).length, get_mime_type ("scan.png")) :=
  clinical_success_response (some ("key"))
    (fun _ _ => GeminiOutcome.ok ("  Idade 45, sexo M. Queixa: dor.  "))
    ("scan.png") ("  Idade 45, sexo M. Queixa: dor.  ") [7, 8, 9]
    (by decide) (by decide) (by decide) rfl (by decide)

/-- C4 fails as stated: for a 25 MiB upload named a.txt the validator does
reject, but the reason names the extension and reports no megabyte figure at
all (the extension check fires first). -/
theorem oversize_message_counterexample :
    (validate_file ("a.txt") (25 * 1024 * 1024)).1 = false ∧
    (validate_file ("a.txt") (25 * 1024 * 1024)).2 = msgFormato (("txt")) ∧
    strContains (validate_file ("a.txt") (25 * 1024 * 1024)).2
      (formatMB (25 * 1024 * 1024)) = false ∧
    strContains (validate_file ("a.txt") (25 * 1024 * 1024)).2 (("MB")) = false := by
  decide

/-- C4 (amended): for filenames whose extension is allow-listed, an oversize
upload is rejected with the message reporting the size in MB to one decimal
place (an integer part, a dot, and one digit), and the handler returns
HTTP 400 with error INVALID_FILE and that message. -/
theorem oversize_reports_mb (apiKey : Option String)
    (gemini : List Nat → String → GeminiOutcome) (fn : String) (bytes : List Nat)
    (hkey : keyMissing apiKey = false) (hfn : fn ≠ (""))
    (hext : extOf fn ∈ allowed) (hsize : bytes.length > max_size) :
    validate_file fn bytes.length = (false, msgGrande bytes.length) ∧
    formatMB bytes.length
      = toString (mbTenths bytes.length / 10) ++ (".") ++ toString (mbTenths bytes.length % 10) ∧
    mbTenths bytes.length % 10 < 10 ∧
    strContains (msgGrande bytes.length) (formatMB bytes.length ++ ("MB")) = true ∧
    extract apiKey gemini Method.POST (some ⟨fn, bytes⟩) =
      errorResponse 400 ("INVALID_FILE") (msgGrande bytes.length) := by
  have hv : validate_file fn bytes.length = (false, msgGrande bytes.length) := by
    simp [validate_file, hext, hsize]
  refine ⟨hv, rfl, Nat.mod_lt _ (by decide), msgGrande_contains _, ?_⟩
  simp [extract, hkey, hfn, hv]

/-- C4 witness: a 25 MiB PDF upload. -/
theorem oversize_reports_mb_witness :
    validate_file ("doc.pdf") (List.replicate (25 * 1024 * 1024) (0 : Nat)).length
      = (false, msgGrande (List.replicate (25 * 1024 * 1024) (0 : Nat)).length) ∧
    formatMB (List.replicate (25 * 1024 * 1024) (0 : Nat)).length
      = toString (mbTenths (List.replicate (25 * 1024 * 1024) (0 : Nat)).length / 10) ++ (".")
        ++ toString (mbTenths (List.replicate (25 * 1024 * 1024) (0 : Nat)).length % 10) ∧
    mbTenths (List.replicate (25 * 1024 * 1024) (0 : Nat)).length % 10 < 10 ∧
    strContains (msgGrande (List.replicate (25 * 1024 * 1024) (0 : Nat)).length)
      (formatMB (List.replicate (25 * 1024 * 1024) (0 : Nat)).length ++ ("MB")) = true ∧
    extract (some ("key")) (fun _ _ => GeminiOutcome.exn) Method.POST
        (some ⟨("doc.pdf"), List.replicate (25 * 1024 * 1024) (0 : Nat)⟩) =
      errorResponse 400 ("INVALID_FILE")
        (msgGrande (List.replicate (25 * 1024 * 1024) (0 : Nat)).length) :=
  oversize_reports_mb (some ("key")) (fun _ _ => GeminiOutcome.exn) ("doc.pdf")
    (List.replicate (25 * 1024 * 1024) (0 : Nat)) (by decide) (by decide) (by decide)
    (by simp only [List.length_replicate]; decide)

/-- C5: an exception from the external call is caught and answered with
HTTP 500, error PROCESSING_ERROR, and a fixed generic message carrying no
detail of the exception; the handler returns a response (nothing escapes). -/
theorem processing_error_caught (apiKey : Option String)
    (gemini : List Nat → String → GeminiOutcome) (fn : String) (bytes : List Nat)
    (hkey : keyMissing apiKey = false) (hfn : fn ≠ (""))
    (hval : (validate_file fn bytes.length).1 = true)
    (hexn : gemini bytes (get_mime_type fn) = GeminiOutcome.exn) :
    extract apiKey gemini Method.POST (some ⟨fn, bytes⟩) =
      errorResponse 500 ("PROCESSING_ERROR") msgErro ∧
    msgErro = ("Erro ao processar documento. Tente novamente.") := by
  refine ⟨?_, rfl⟩
  rw [extract_processed apiKey gemini fn bytes hkey hfn hval, hexn]

/-- C5 witness: an oracle that always raises. -/
theorem processing_error_caught_witness :
    extract (some ("key")) (fun _ _ => GeminiOutcome.exn) Method.POST
        (some ⟨("a.pdf"), [0, 1, 2]⟩) =
      errorResponse 500 ("PROCESSING_ERROR") msgErro ∧
    msgErro = ("Erro ao processar documento. Tente novamente.") :=
  processing_error_caught (some ("key")) (fun _ _ => GeminiOutcome.exn) ("a.pdf")
    [0, 1, 2] (by decide) (by decide) (by decide) rfl

/-- C6 fails as stated: with the key unset, an OPTIONS call to /extract is
answered 204 with an empty body, not 500 CONFIG_ERROR (the preflight check
precedes the key check). -/
theorem config_options_counterexample :
    extract none (fun _ _ => GeminiOutcome.exn) Method.OPTIONS none
      = { status := 204, body := none } ∧
    (extract none (fun _ _ => GeminiOutcome.exn) Method.OPTIONS none).status ≠ 500 := by
  refine ⟨rfl, by decide⟩

/-- C6 (amended): with the key unset, every POST to /extract is answered
HTTP 500 with error CONFIG_ERROR, uniformly in the file field — the file is
never examined and no bytes are read. -/
theorem config_error_for_posts (gemini : List Nat → String → GeminiOutcome)
    (files : Option FilePart) :
    extract none gemini Method.POST files = errorResponse 500 ("CONFIG_ERROR") msgConfig := by
  rfl

/-- C8: with the key configured, a POST whose body has no file field, or an
empty filename, is answered HTTP 400 with error NO_FILE, independently of
the model oracle (which is never invoked). -/
theorem no_file_rejected (apiKey : Option String)
    (gemini : List Nat → String → GeminiOutcome) (files : Option FilePart)
    (hkey : keyMissing apiKey = false)
    (hfiles : files = none ∨ ∃ c, files = some ⟨(""), c⟩) :
    extract apiKey gemini Method.POST files =
      errorResponse 400 ("NO_FILE")
        (match files with
         | none => msgNoFile
         | some _ => msgSemNome) := by
  rcases hfiles with h | ⟨c, h⟩ <;> subst h
  · simp [extract, hkey]
  · simp [extract, hkey]

/-- C8 witness: a POST with no file field. -/
theorem no_file_rejected_witness :
    extract (some ("key")) (fun _ _ => GeminiOutcome.exn) Method.POST none =
      errorResponse 400 ("NO_FILE") msgNoFile :=
  no_file_rejected (some ("key")) (fun _ _ => GeminiOutcome.exn) none
    (by decide) (Or.inl rfl)

end ClinicalAggregator
